import Mathlib

/-!
Verification of the clan-manager synchronizer (src/service/main.py).

The service reconciles clan records between a local store, an authoritative
source API and an event bus.  We embed the two operations `add_clan` and
`remove_clan` shallowly: each dependency call (store lookup, source lookup,
store create, store delete) is answered by an `Env` of HTTP results fixed in
advance, the run is deterministic, and we record the list of dependency calls
issued and the list of events published.
-/

namespace ClanManager

/-- Clan record (class `ClanModel` in src/service/main.py): `clan_id : int`,
`clan_tag : str`. -/
structure ClanModel where
  clan_id : Int
  clan_tag : String
  deriving DecidableEq, Repr

/-- What one HTTP dependency call returns, as seen through `requests`:
either a response with a status code and a body that may or may not parse as a
`ClanModel` (`none` models a body that `response.json()` / `ClanModel(**data)`
rejects), or a transport-level failure (timeout, connection error). -/
inductive HttpResult where
  | resp (status : Nat) (body : Option ClanModel)
  | transportError (msg : String)
  deriving DecidableEq

/-- An exception propagating out of a dependency helper:
`httpStatus` is the `HTTPError` raised by `response.raise_for_status()`,
`transport` a `requests` transport exception, `invalidBody` a JSON/validation
failure. -/
inductive DepError where
  | httpStatus (status : Nat)
  | transport (msg : String)
  | invalidBody
  deriving DecidableEq

/-- `requests.Response.raise_for_status` raises exactly when
`400 <= status_code < 600`. -/
def raisesForStatus (status : Nat) : Bool :=
  decide (400 ≤ status) && decide (status < 600)

/-- The responses the three collaborators would give during one invocation.
Each field answers one kind of dependency call. -/
structure Env where
  storeLookup : String → HttpResult
  sourceLookup : String → HttpResult
  storeCreate : ClanModel → HttpResult
  storeDelete : ClanModel → HttpResult

/-- `get_stored_clan_data` (src/service/main.py:43-54): GET on the store;
404 means absent, other error statuses raise, otherwise the body is parsed. -/
def get_stored_clan_data (env : Env) (clan_tag : String) :
    Except DepError (Option ClanModel) :=
  match env.storeLookup clan_tag with
  | .transportError m => .error (.transport m)
  | .resp status body =>
    if status == 404 then .ok none
    else if raisesForStatus status then .error (.httpStatus status)
    else
      match body with
      | some c => .ok (some c)
      | none => .error .invalidBody

/-- `get_api_clan_data` (src/service/main.py:57-68): GET on the source API;
same shape as the store lookup. -/
def get_api_clan_data (env : Env) (clan_tag : String) :
    Except DepError (Option ClanModel) :=
  match env.sourceLookup clan_tag with
  | .transportError m => .error (.transport m)
  | .resp status body =>
    if status == 404 then .ok none
    else if raisesForStatus status then .error (.httpStatus status)
    else
      match body with
      | some c => .ok (some c)
      | none => .error .invalidBody

/-- `save_clan` (src/service/main.py:71-83): PUT the record to the store;
raises on error statuses, otherwise returns `status == 201`. -/
def save_clan (env : Env) (clan_data : ClanModel) : Except DepError Bool :=
  match env.storeCreate clan_data with
  | .transportError m => .error (.transport m)
  | .resp status _ =>
    if raisesForStatus status then .error (.httpStatus status)
    else .ok (status == 201)

/-- `delete_clan` (src/service/main.py:86-97): DELETE the record from the
store; raises on error statuses, otherwise returns nothing. -/
def delete_clan (env : Env) (clan_data : ClanModel) : Except DepError Unit :=
  match env.storeDelete clan_data with
  | .transportError m => .error (.transport m)
  | .resp status _ =>
    if raisesForStatus status then .error (.httpStatus status)
    else .ok ()

/-- One dependency call issued during an invocation. -/
inductive Call where
  | storeLookup (tag : String)
  | sourceLookup (tag : String)
  | storeCreate (c : ClanModel)
  | storeDelete (c : ClanModel)
  deriving DecidableEq

/-- UTF-8 encoding of one character (the algorithm behind
`str.encode("utf-8")`), as a list of byte values. -/
def charUtf8 (c : Char) : List Nat :=
  let n := c.toNat
  if n < 0x80 then [n]
  else if n < 0x800 then
    [0xC0 ||| (n >>> 6), 0x80 ||| (n &&& 0x3F)]
  else if n < 0x10000 then
    [0xE0 ||| (n >>> 12), 0x80 ||| ((n >>> 6) &&& 0x3F), 0x80 ||| (n &&& 0x3F)]
  else
    [0xF0 ||| (n >>> 18), 0x80 ||| ((n >>> 12) &&& 0x3F),
     0x80 ||| ((n >>> 6) &&& 0x3F), 0x80 ||| (n &&& 0x3F)]

/-- `s.encode("utf-8")` as a list of byte values. -/
def utf8Bytes (s : String) : List Nat :=
  s.data.flatMap charUtf8

/-- A published bus message: `nats_con.publish(topic, payload)`. -/
structure Event where
  topic : String
  payload : List Nat
  deriving DecidableEq

/-- Observable outcome of one invocation: the value returned to the transport
layer (or the propagated dependency exception), the dependency calls issued in
order, and the events published in order. -/
structure RunOut (α : Type) where
  result : Except DepError α
  calls : List Call
  events : List Event

/-- Return value of `add_clan`: `Response(200)`, `Response(201)`, or
`HTTPException(404)`. -/
inductive AddResult where
  | alreadyPresent
  | created
  | notFound
  deriving DecidableEq

/-- HTTP status carried by each `add_clan` outcome. -/
def AddResult.httpStatus : AddResult → Nat
  | .alreadyPresent => 200
  | .created => 201
  | .notFound => 404

/-- Return value of `remove_clan`: `Response(200)` or `HTTPException(404)`. -/
inductive RemoveResult where
  | removed
  | notFound
  deriving DecidableEq

/-- HTTP status carried by each `remove_clan` outcome. -/
def RemoveResult.httpStatus : RemoveResult → Nat
  | .removed => 200
  | .notFound => 404

/-- `add_clan` (src/service/main.py:109-131): store lookup; hit → 200;
miss → source lookup; miss → 404; hit → store create; not created → 200;
created → publish `clans.add` with `str(clan_id).encode("utf-8")`, 201.
Any exception from a dependency helper propagates unmodified.
The NATS publish itself is modelled as succeeding (fire-and-forget). -/
def add_clan (env : Env) (clan_tag : String) : RunOut AddResult :=
  match get_stored_clan_data env clan_tag with
  | .error e => ⟨.error e, [.storeLookup clan_tag], []⟩
  | .ok (some _) => ⟨.ok .alreadyPresent, [.storeLookup clan_tag], []⟩
  | .ok none =>
    match get_api_clan_data env clan_tag with
    | .error e => ⟨.error e, [.storeLookup clan_tag, .sourceLookup clan_tag], []⟩
    | .ok none => ⟨.ok .notFound, [.storeLookup clan_tag, .sourceLookup clan_tag], []⟩
    | .ok (some api_clan_data) =>
      match save_clan env api_clan_data with
      | .error e =>
        ⟨.error e,
         [.storeLookup clan_tag, .sourceLookup clan_tag, .storeCreate api_clan_data], []⟩
      | .ok false =>
        ⟨.ok .alreadyPresent,
         [.storeLookup clan_tag, .sourceLookup clan_tag, .storeCreate api_clan_data], []⟩
      | .ok true =>
        ⟨.ok .created,
         [.storeLookup clan_tag, .sourceLookup clan_tag, .storeCreate api_clan_data],
         [⟨"clans.add", utf8Bytes (toString api_clan_data.clan_id)⟩]⟩

/-- `remove_clan` (src/service/main.py:142-160): store lookup; on miss fall
back to the source lookup; no record anywhere → 404; otherwise delete the
resolved record from the store, publish `clans.delete` with
`str(clan_id).encode("utf-8")`, 200.  Any exception from a dependency helper
propagates unmodified. -/
def remove_clan (env : Env) (clan_tag : String) : RunOut RemoveResult :=
  match get_stored_clan_data env clan_tag with
  | .error e => ⟨.error e, [.storeLookup clan_tag], []⟩
  | .ok (some clan_data) =>
    match delete_clan env clan_data with
    | .error e => ⟨.error e, [.storeLookup clan_tag, .storeDelete clan_data], []⟩
    | .ok _ =>
      ⟨.ok .removed, [.storeLookup clan_tag, .storeDelete clan_data],
       [⟨"clans.delete", utf8Bytes (toString clan_data.clan_id)⟩]⟩
  | .ok none =>
    match get_api_clan_data env clan_tag with
    | .error e => ⟨.error e, [.storeLookup clan_tag, .sourceLookup clan_tag], []⟩
    | .ok none => ⟨.ok .notFound, [.storeLookup clan_tag, .sourceLookup clan_tag], []⟩
    | .ok (some clan_data) =>
      match delete_clan env clan_data with
      | .error e =>
        ⟨.error e,
         [.storeLookup clan_tag, .sourceLookup clan_tag, .storeDelete clan_data], []⟩
      | .ok _ =>
        ⟨.ok .removed,
         [.storeLookup clan_tag, .sourceLookup clan_tag, .storeDelete clan_data],
         [⟨"clans.delete", utf8Bytes (toString clan_data.clan_id)⟩]⟩

/-! ### Store-state semantics

The store service itself is a separate collaborator whose code is not part of
this repository; its contract is given in the spec (§6).  To talk about the
store's record set actually transitioning we model that contract and derive an
`Env` from a store state and a source table. -/

/-- Modelled from the spec: the Store Client lookup key — the first stored
record whose tag matches (§6 "lookup by tag"; tags are unique per clan). -/
def storeFind (store : List ClanModel) (tag : String) : Option ClanModel :=
  store.find? (fun r => r.clan_tag == tag)

/-- Modelled from the spec: the collaborator contract of §6 over a concrete
store record set and source table.  Lookups answer 200 with the record or 404;
create answers 201 when the tag is genuinely new and 200 when it already
existed; delete always acknowledges (tolerates missing). -/
def envOfState (store : List ClanModel) (source : String → Option ClanModel) : Env where
  storeLookup tag :=
    match storeFind store tag with
    | some c => .resp 200 (some c)
    | none => .resp 404 none
  sourceLookup tag :=
    match source tag with
    | some c => .resp 200 (some c)
    | none => .resp 404 none
  storeCreate c :=
    if (storeFind store c.clan_tag).isSome then .resp 200 none else .resp 201 none
  storeDelete _ := .resp 200 none

/-- Modelled from the spec: the effect of one dependency call on the store's
record set.  Create inserts when the tag is new (idempotent per identifier,
§4.1); delete removes the records matching the given id and tag and tolerates
a missing record (§4.2); lookups do not mutate. -/
def applyCall (store : List ClanModel) : Call → List ClanModel
  | .storeCreate c =>
    if (storeFind store c.clan_tag).isSome then store else store ++ [c]
  | .storeDelete c =>
    store.filter (fun r => !(r.clan_id == c.clan_id && r.clan_tag == c.clan_tag))
  | _ => store

/-- The store record set after a sequence of dependency calls. -/
def storeAfter (store : List ClanModel) (calls : List Call) : List ClanModel :=
  calls.foldl applyCall store

/-- Two store states hold the same record set. -/
def sameRecords (a b : List ClanModel) : Prop :=
  ∀ c, c ∈ a ↔ c ∈ b

theorem sameRecords_refl (a : List ClanModel) : sameRecords a a :=
  fun _ => Iff.rfl

/-- Behaviour of the store lookup helper over the modelled store. -/
theorem get_stored_envOfState (store : List ClanModel)
    (source : String → Option ClanModel) (tag : String) :
    get_stored_clan_data (envOfState store source) tag = .ok (storeFind store tag) := by
  cases h : storeFind store tag <;>
    simp [get_stored_clan_data, envOfState, h, raisesForStatus]

/-- Behaviour of the source lookup helper over the modelled source. -/
theorem get_api_envOfState (store : List ClanModel)
    (source : String → Option ClanModel) (tag : String) :
    get_api_clan_data (envOfState store source) tag = .ok (source tag) := by
  cases h : source tag <;>
    simp [get_api_clan_data, envOfState, h, raisesForStatus]

/-- Behaviour of the create helper over the modelled store: it reports a
creation exactly when no record with that tag was present. -/
theorem save_envOfState (store : List ClanModel)
    (source : String → Option ClanModel) (c : ClanModel) :
    save_clan (envOfState store source) c = .ok (!(storeFind store c.clan_tag).isSome) := by
  cases h : (storeFind store c.clan_tag).isSome <;>
    simp [save_clan, envOfState, h, raisesForStatus]

/-- Behaviour of the delete helper over the modelled store: it always
acknowledges. -/
theorem delete_envOfState (store : List ClanModel)
    (source : String → Option ClanModel) (c : ClanModel) :
    delete_clan (envOfState store source) c = .ok () := by
  simp [delete_clan, envOfState, raisesForStatus]

/-- Add over the modelled store when the store lookup hits. -/
theorem add_env_hit (store : List ClanModel) (source : String → Option ClanModel)
    (tag : String) (c : ClanModel) (hfind : storeFind store tag = some c) :
    add_clan (envOfState store source) tag =
      ⟨.ok .alreadyPresent, [.storeLookup tag], []⟩ := by
  simp [add_clan, get_stored_envOfState, hfind]

/-- Add over the modelled store when tag is absent from store and source. -/
theorem add_env_absent (store : List ClanModel) (source : String → Option ClanModel)
    (tag : String) (hfind : storeFind store tag = none) (hsrc : source tag = none) :
    add_clan (envOfState store source) tag =
      ⟨.ok .notFound, [.storeLookup tag, .sourceLookup tag], []⟩ := by
  simp [add_clan, get_stored_envOfState, get_api_envOfState, hfind, hsrc]

/-- Add over the modelled store when the store misses, the source answers, and
the returned record's tag is genuinely new in the store. -/
theorem add_env_new (store : List ClanModel) (source : String → Option ClanModel)
    (tag : String) (c : ClanModel) (hfind : storeFind store tag = none)
    (hsrc : source tag = some c) (hnew : storeFind store c.clan_tag = none) :
    add_clan (envOfState store source) tag =
      ⟨.ok .created, [.storeLookup tag, .sourceLookup tag, .storeCreate c],
       [⟨"clans.add", utf8Bytes (toString c.clan_id)⟩]⟩ := by
  simp [add_clan, get_stored_envOfState, get_api_envOfState, save_envOfState,
    hfind, hsrc, hnew]

/-- Add over the modelled store when the store misses on the queried tag but
the create still finds the record tag present (the race arm). -/
theorem add_env_raced (store : List ClanModel) (source : String → Option ClanModel)
    (tag : String) (c r : ClanModel) (hfind : storeFind store tag = none)
    (hsrc : source tag = some c) (hold : storeFind store c.clan_tag = some r) :
    add_clan (envOfState store source) tag =
      ⟨.ok .alreadyPresent, [.storeLookup tag, .sourceLookup tag, .storeCreate c], []⟩ := by
  simp [add_clan, get_stored_envOfState, get_api_envOfState, save_envOfState,
    hfind, hsrc, hold]

/-- Remove over the modelled store when the store lookup hits. -/
theorem remove_env_hit (store : List ClanModel) (source : String → Option ClanModel)
    (tag : String) (c : ClanModel) (hfind : storeFind store tag = some c) :
    remove_clan (envOfState store source) tag =
      ⟨.ok .removed, [.storeLookup tag, .storeDelete c],
       [⟨"clans.delete", utf8Bytes (toString c.clan_id)⟩]⟩ := by
  simp [remove_clan, get_stored_envOfState, delete_envOfState, hfind]

/-- Remove over the modelled store when tag is absent from store and source. -/
theorem remove_env_absent (store : List ClanModel) (source : String → Option ClanModel)
    (tag : String) (hfind : storeFind store tag = none) (hsrc : source tag = none) :
    remove_clan (envOfState store source) tag =
      ⟨.ok .notFound, [.storeLookup tag, .sourceLookup tag], []⟩ := by
  simp [remove_clan, get_stored_envOfState, get_api_envOfState, hfind, hsrc]

/-- Remove over the modelled store when the store misses but the source
supplies a record (the fallback arm). -/
theorem remove_env_fallback (store : List ClanModel) (source : String → Option ClanModel)
    (tag : String) (c : ClanModel) (hfind : storeFind store tag = none)
    (hsrc : source tag = some c) :
    remove_clan (envOfState store source) tag =
      ⟨.ok .removed, [.storeLookup tag, .sourceLookup tag, .storeDelete c],
       [⟨"clans.delete", utf8Bytes (toString c.clan_id)⟩]⟩ := by
  simp [remove_clan, get_stored_envOfState, get_api_envOfState, delete_envOfState,
    hfind, hsrc]

/-- A record found under a tag is a member of the store and carries that tag. -/
theorem storeFind_some_mem (store : List ClanModel) (tag : String) (c : ClanModel)
    (h : storeFind store tag = some c) : c ∈ store ∧ c.clan_tag = tag := by
  refine ⟨List.mem_of_find?_eq_some h, ?_⟩
  have := List.find?_some h
  simpa using this

/-- A record whose tag the store does not know is not a member of the store. -/
theorem storeFind_none_not_mem (store : List ClanModel) (c : ClanModel)
    (h : storeFind store c.clan_tag = none) : c ∉ store := by
  intro hc
  have := List.find?_eq_none.mp h c hc
  simp at this

/-- The source table of the concrete scenarios: only tag TEST is known, with
identifier 1. -/
def sourceTEST : String → Option ClanModel :=
  fun tag => if tag == "TEST" then some ⟨1, "TEST"⟩ else none

/-- Claim C1 (counterexample): on an empty store whose source knows TEST,
Remove TEST publishes an event although the store record set is unchanged, so
publication is not equivalent to a state transition. -/
theorem remove_event_without_transition :
    (remove_clan (envOfState [] sourceTEST) "TEST").events ≠ [] ∧
    storeAfter [] (remove_clan (envOfState [] sourceTEST) "TEST").calls = [] := by
  refine ⟨?_, rfl⟩
  have h : (remove_clan (envOfState [] sourceTEST) "TEST").events
      = [⟨"clans.delete", utf8Bytes (toString (1 : Int))⟩] := rfl
  rw [h]
  simp

/-- Claim C1 (amended): over the modelled store, an Add invocation publishes
an event exactly when the store record set actually changed; a Remove
invocation publishes whenever the record set changed, and publishes exactly
when it reports Removed — which, on the source-fallback path, can happen with
the record set unchanged. -/
theorem events_iff_transition (store : List ClanModel)
    (source : String → Option ClanModel) (tag : String) :
    ((add_clan (envOfState store source) tag).events ≠ [] ↔
      ¬ sameRecords
        (storeAfter store (add_clan (envOfState store source) tag).calls) store) ∧
    (¬ sameRecords
        (storeAfter store (remove_clan (envOfState store source) tag).calls) store →
      (remove_clan (envOfState store source) tag).events ≠ []) ∧
    ((remove_clan (envOfState store source) tag).events ≠ [] ↔
      (remove_clan (envOfState store source) tag).result = .ok .removed) := by
  rcases hfind : storeFind store tag with _ | c
  · rcases hsrc : source tag with _ | c
    · rw [add_env_absent store source tag hfind hsrc,
        remove_env_absent store source tag hfind hsrc]
      have hafter : storeAfter store [Call.storeLookup tag, Call.sourceLookup tag]
          = store := rfl
      refine ⟨?_, ?_, ?_⟩
      · simp [hafter, sameRecords_refl store]
      · intro hne
        rw [hafter] at hne
        exact absurd (sameRecords_refl store) hne
      · simp
    · rcases hnew : storeFind store c.clan_tag with _ | r
      · rw [add_env_new store source tag c hfind hsrc hnew,
          remove_env_fallback store source tag c hfind hsrc]
        have hafter : storeAfter store
            [Call.storeLookup tag, Call.sourceLookup tag, Call.storeCreate c]
            = store ++ [c] := by
          simp [storeAfter, applyCall, hnew]
        have hnotmem : c ∉ store := storeFind_none_not_mem store c hnew
        refine ⟨?_, fun _ => by simp, by simp⟩
        rw [hafter]
        constructor
        · intro _ hs
          exact hnotmem ((hs c).mp (by simp))
        · intro _
          simp
      · rw [add_env_raced store source tag c r hfind hsrc hnew,
          remove_env_fallback store source tag c hfind hsrc]
        have hafter : storeAfter store
            [Call.storeLookup tag, Call.sourceLookup tag, Call.storeCreate c]
            = store := by
          simp [storeAfter, applyCall, hnew]
        refine ⟨?_, fun _ => by simp, by simp⟩
        rw [hafter]
        simp [sameRecords_refl store]
  · rw [add_env_hit store source tag c hfind, remove_env_hit store source tag c hfind]
    have hafter : storeAfter store [Call.storeLookup tag] = store := rfl
    refine ⟨?_, fun _ => by simp, by simp⟩
    rw [hafter]
    simp [sameRecords_refl store]

/-- Claim C2: when the store lookup misses, the source returns a record, and
the create reports a genuine creation, Add publishes exactly one clans.add
event carrying the clan identifier as decimal-string bytes and reports
Created, HTTP 201. -/
theorem add_created_publishes (env : Env) (tag : String) (c : ClanModel)
    (h1 : get_stored_clan_data env tag = .ok none)
    (h2 : get_api_clan_data env tag = .ok (some c))
    (h3 : save_clan env c = .ok true) :
    add_clan env tag =
      ⟨.ok .created, [.storeLookup tag, .sourceLookup tag, .storeCreate c],
       [⟨"clans.add", utf8Bytes (toString c.clan_id)⟩]⟩ ∧
    AddResult.created.httpStatus = 201 := by
  refine ⟨?_, rfl⟩
  simp [add_clan, h1, h2, h3]

/-- Claim C3: when the store lookup hits, Add reports AlreadyPresent,
HTTP 200, issues no further dependency call (so neither the source lookup nor
any store mutation happens) and publishes nothing. -/
theorem add_present_idempotent (env : Env) (tag : String) (c : ClanModel)
    (h : get_stored_clan_data env tag = .ok (some c)) :
    add_clan env tag = ⟨.ok .alreadyPresent, [.storeLookup tag], []⟩ ∧
    AddResult.alreadyPresent.httpStatus = 200 := by
  refine ⟨?_, rfl⟩
  simp [add_clan, h]

/-- Claim C4: when both lookups report not-found, Add fails with NotFound,
HTTP 404, issues no create call and publishes nothing. -/
theorem add_absent_not_found (env : Env) (tag : String)
    (h1 : get_stored_clan_data env tag = .ok none)
    (h2 : get_api_clan_data env tag = .ok none) :
    add_clan env tag = ⟨.ok .notFound, [.storeLookup tag, .sourceLookup tag], []⟩ ∧
    AddResult.notFound.httpStatus = 404 := by
  refine ⟨?_, rfl⟩
  simp [add_clan, h1, h2]

/-- Claim C5: when the store lookup misses, the source returns a record and
the delete call succeeds, Remove deletes the source-supplied record, publishes
one clans.delete event carrying its identifier as decimal-string bytes and
reports Removed, HTTP 200. -/
theorem remove_fallback_publishes (env : Env) (tag : String) (c : ClanModel)
    (h1 : get_stored_clan_data env tag = .ok none)
    (h2 : get_api_clan_data env tag = .ok (some c))
    (h3 : delete_clan env c = .ok ()) :
    remove_clan env tag =
      ⟨.ok .removed, [.storeLookup tag, .sourceLookup tag, .storeDelete c],
       [⟨"clans.delete", utf8Bytes (toString c.clan_id)⟩]⟩ ∧
    RemoveResult.removed.httpStatus = 200 := by
  refine ⟨?_, rfl⟩
  simp [remove_clan, h1, h2, h3]

/-- Claim C6: when both lookups report not-found, Remove fails with NotFound,
HTTP 404, issues no delete call and publishes nothing. -/
theorem remove_absent_not_found (env : Env) (tag : String)
    (h1 : get_stored_clan_data env tag = .ok none)
    (h2 : get_api_clan_data env tag = .ok none) :
    remove_clan env tag =
      ⟨.ok .notFound, [.storeLookup tag, .sourceLookup tag], []⟩ ∧
    RemoveResult.notFound.httpStatus = 404 := by
  refine ⟨?_, rfl⟩
  simp [remove_clan, h1, h2]

/-- Claim C7: when the store lookup misses, the source returns a record and
the create reports that the record already existed, Add reports
AlreadyPresent, HTTP 200, and publishes nothing. -/
theorem add_raced_no_event (env : Env) (tag : String) (c : ClanModel)
    (h1 : get_stored_clan_data env tag = .ok none)
    (h2 : get_api_clan_data env tag = .ok (some c))
    (h3 : save_clan env c = .ok false) :
    add_clan env tag =
      ⟨.ok .alreadyPresent, [.storeLookup tag, .sourceLookup tag, .storeCreate c], []⟩ ∧
    AddResult.alreadyPresent.httpStatus = 200 := by
  refine ⟨?_, rfl⟩
  simp [add_clan, h1, h2, h3]

/-- Claim C8: when the store lookup hits, Remove never consults the source:
two invocations whose environments agree on every store response produce
identical outcomes, calls and events, and no source lookup appears in the
trace. -/
theorem remove_store_hit_ignores_source (env1 env2 : Env) (tag : String)
    (hsl : env1.storeLookup = env2.storeLookup)
    (_hsc : env1.storeCreate = env2.storeCreate)
    (hsd : env1.storeDelete = env2.storeDelete)
    (hhit : ∃ c, get_stored_clan_data env1 tag = .ok (some c)) :
    remove_clan env1 tag = remove_clan env2 tag ∧
    ∀ t, Call.sourceLookup t ∉ (remove_clan env1 tag).calls := by
  obtain ⟨c, hc⟩ := hhit
  have hst2 : get_stored_clan_data env2 tag = get_stored_clan_data env1 tag := by
    simp [get_stored_clan_data, hsl]
  have hdel2 : delete_clan env2 c = delete_clan env1 c := by
    simp [delete_clan, hsd]
  cases hd : delete_clan env1 c with
  | error e =>
    refine ⟨?_, fun t => ?_⟩
    · simp [remove_clan, hc, hst2, hdel2, hd]
    · simp [remove_clan, hc, hd]
  | ok u =>
    cases u
    refine ⟨?_, fun t => ?_⟩
    · simp [remove_clan, hc, hst2, hdel2, hd]
    · simp [remove_clan, hc, hd]

/-- The Add flow hit a failing dependency call: the first failing helper in
its sequence of dependency calls returned the exception `e`. -/
def addDependencyFails (env : Env) (tag : String) (e : DepError) : Prop :=
  get_stored_clan_data env tag = .error e ∨
  (get_stored_clan_data env tag = .ok none ∧ get_api_clan_data env tag = .error e) ∨
  (∃ c, get_stored_clan_data env tag = .ok none ∧
    get_api_clan_data env tag = .ok (some c) ∧ save_clan env c = .error e)

/-- The Remove flow hit a failing dependency call: the first failing helper in
its sequence of dependency calls returned the exception `e`. -/
def removeDependencyFails (env : Env) (tag : String) (e : DepError) : Prop :=
  get_stored_clan_data env tag = .error e ∨
  (get_stored_clan_data env tag = .ok none ∧ get_api_clan_data env tag = .error e) ∨
  (∃ c, get_stored_clan_data env tag = .ok (some c) ∧ delete_clan env c = .error e) ∨
  (∃ c, get_stored_clan_data env tag = .ok none ∧
    get_api_clan_data env tag = .ok (some c) ∧ delete_clan env c = .error e)

/-- Claim C9: whenever a dependency call of an Add or Remove invocation fails,
the invocation's result is exactly that exception — not a NotFound answer —
and no event is published. -/
theorem dependency_error_propagates (env : Env) (tag : String) (e : DepError) :
    (addDependencyFails env tag e →
      (add_clan env tag).result = .error e ∧ (add_clan env tag).events = []) ∧
    (removeDependencyFails env tag e →
      (remove_clan env tag).result = .error e ∧ (remove_clan env tag).events = []) := by
  constructor
  · intro h
    rcases h with h1 | ⟨h1, h2⟩ | ⟨c, h1, h2, h3⟩
    · simp [add_clan, h1]
    · simp [add_clan, h1, h2]
    · simp [add_clan, h1, h2, h3]
  · intro h
    rcases h with h1 | ⟨h1, h2⟩ | ⟨c, h1, h2⟩ | ⟨c, h1, h2, h3⟩
    · simp [remove_clan, h1]
    · simp [remove_clan, h1, h2]
    · simp [remove_clan, h1, h2]
    · simp [remove_clan, h1, h2, h3]

/-- Claim C10: the create is read as a genuine creation exactly when its
status is 201; under any other non-raising status an Add that reaches the
create step answers AlreadyPresent and publishes nothing. -/
theorem create_only_201_publishes (env : Env) (tag : String) (c : ClanModel)
    (status : Nat) (body : Option ClanModel)
    (hc : env.storeCreate c = .resp status body)
    (hok : raisesForStatus status = false)
    (h1 : get_stored_clan_data env tag = .ok none)
    (h2 : get_api_clan_data env tag = .ok (some c)) :
    save_clan env c = .ok (status == 201) ∧
    (status ≠ 201 →
      add_clan env tag =
        ⟨.ok .alreadyPresent,
         [.storeLookup tag, .sourceLookup tag, .storeCreate c], []⟩) := by
  have hsave : save_clan env c = .ok (status == 201) := by
    simp [save_clan, hc, hok]
  refine ⟨hsave, fun hne => ?_⟩
  have hbe : (status == 201) = false := beq_eq_false_iff_ne.mpr hne
  rw [hbe] at hsave
  simp [add_clan, h1, h2, hsave]

/-! ### Concrete run environments

Fixed dependency responses used to exercise each theorem on the spec's
concrete scenario (tag TEST, identifier 1). -/

/-- Store misses, source knows clan 1 TEST, create answers 201, delete
acknowledges. -/
def envCreated : Env where
  storeLookup _ := .resp 404 none
  sourceLookup _ := .resp 200 (some ⟨1, "TEST"⟩)
  storeCreate _ := .resp 201 none
  storeDelete _ := .resp 200 none

/-- Store already holds clan 1 TEST; source and create would fail if they
were ever reached. -/
def envStoreHit : Env where
  storeLookup _ := .resp 200 (some ⟨1, "TEST"⟩)
  sourceLookup _ := .transportError "source down"
  storeCreate _ := .transportError "store down"
  storeDelete _ := .resp 200 none

/-- Both lookups answer 404. -/
def envAbsent : Env where
  storeLookup _ := .resp 404 none
  sourceLookup _ := .resp 404 none
  storeCreate _ := .transportError "store down"
  storeDelete _ := .transportError "store down"

/-- Store misses, source answers, but the create reports 200: the record
already existed. -/
def envRaced : Env where
  storeLookup _ := .resp 404 none
  sourceLookup _ := .resp 200 (some ⟨1, "TEST"⟩)
  storeCreate _ := .resp 200 none
  storeDelete _ := .resp 200 none

/-- Store holds clan 1 TEST and the source answers normally. -/
def envHitSrcUp : Env where
  storeLookup _ := .resp 200 (some ⟨1, "TEST"⟩)
  sourceLookup _ := .resp 200 (some ⟨2, "OTHER"⟩)
  storeCreate _ := .resp 201 none
  storeDelete _ := .resp 200 none

/-- Same store responses as `envHitSrcUp`, but the source transport fails. -/
def envHitSrcDown : Env where
  storeLookup _ := .resp 200 (some ⟨1, "TEST"⟩)
  sourceLookup _ := .transportError "source down"
  storeCreate _ := .resp 201 none
  storeDelete _ := .resp 200 none

/-- The store lookup itself times out. -/
def envTimeout : Env where
  storeLookup _ := .transportError "timeout"
  sourceLookup _ := .resp 200 (some ⟨1, "TEST"⟩)
  storeCreate _ := .resp 201 none
  storeDelete _ := .resp 200 none

/-- Store misses, source answers, and the create acknowledges with 204. -/
def env204 : Env where
  storeLookup _ := .resp 404 none
  sourceLookup _ := .resp 200 (some ⟨1, "TEST"⟩)
  storeCreate _ := .resp 204 none
  storeDelete _ := .resp 200 none

/-- Claim C2 at the concrete scenario: Add TEST on `envCreated` creates and
publishes one clans.add event with payload "1". -/
theorem add_created_publishes_witness :
    add_clan envCreated "TEST" =
      ⟨.ok .created,
       [.storeLookup "TEST", .sourceLookup "TEST", .storeCreate ⟨1, "TEST"⟩],
       [⟨"clans.add", utf8Bytes (toString (1 : Int))⟩]⟩ ∧
    AddResult.created.httpStatus = 201 :=
  add_created_publishes envCreated "TEST" ⟨1, "TEST"⟩ rfl rfl rfl

/-- Claim C3 at the concrete scenario: Add TEST on `envStoreHit` is a no-op
reporting 200. -/
theorem add_present_idempotent_witness :
    add_clan envStoreHit "TEST" =
      ⟨.ok .alreadyPresent, [.storeLookup "TEST"], []⟩ ∧
    AddResult.alreadyPresent.httpStatus = 200 :=
  add_present_idempotent envStoreHit "TEST" ⟨1, "TEST"⟩ rfl

/-- Claim C4 at the concrete scenario: Add TEST on `envAbsent` answers 404
with no mutation and no event. -/
theorem add_absent_not_found_witness :
    add_clan envAbsent "TEST" =
      ⟨.ok .notFound, [.storeLookup "TEST", .sourceLookup "TEST"], []⟩ ∧
    AddResult.notFound.httpStatus = 404 :=
  add_absent_not_found envAbsent "TEST" rfl rfl

/-- Claim C5 at the concrete scenario: Remove TEST on `envCreated` deletes
the source-supplied record and publishes clans.delete with payload "1". -/
theorem remove_fallback_publishes_witness :
    remove_clan envCreated "TEST" =
      ⟨.ok .removed,
       [.storeLookup "TEST", .sourceLookup "TEST", .storeDelete ⟨1, "TEST"⟩],
       [⟨"clans.delete", utf8Bytes (toString (1 : Int))⟩]⟩ ∧
    RemoveResult.removed.httpStatus = 200 :=
  remove_fallback_publishes envCreated "TEST" ⟨1, "TEST"⟩ rfl rfl rfl

/-- Claim C6 at the concrete scenario: Remove TEST on `envAbsent` answers 404
with no delete and no event. -/
theorem remove_absent_not_found_witness :
    remove_clan envAbsent "TEST" =
      ⟨.ok .notFound, [.storeLookup "TEST", .sourceLookup "TEST"], []⟩ ∧
    RemoveResult.notFound.httpStatus = 404 :=
  remove_absent_not_found envAbsent "TEST" rfl rfl

/-- Claim C7 at the concrete scenario: Add TEST on `envRaced` loses the race
and reports 200 with no event. -/
theorem add_raced_no_event_witness :
    add_clan envRaced "TEST" =
      ⟨.ok .alreadyPresent,
       [.storeLookup "TEST", .sourceLookup "TEST", .storeCreate ⟨1, "TEST"⟩], []⟩ ∧
    AddResult.alreadyPresent.httpStatus = 200 :=
  add_raced_no_event envRaced "TEST" ⟨1, "TEST"⟩ rfl rfl rfl

/-- Claim C8 at the concrete scenario: a failing source changes nothing about
Remove TEST when the store already holds the record. -/
theorem remove_store_hit_ignores_source_witness :
    remove_clan envHitSrcUp "TEST" = remove_clan envHitSrcDown "TEST" ∧
    Call.sourceLookup "TEST" ∉ (remove_clan envHitSrcUp "TEST").calls :=
  ⟨(remove_store_hit_ignores_source envHitSrcUp envHitSrcDown "TEST"
      rfl rfl rfl ⟨⟨1, "TEST"⟩, rfl⟩).1,
   (remove_store_hit_ignores_source envHitSrcUp envHitSrcDown "TEST"
      rfl rfl rfl ⟨⟨1, "TEST"⟩, rfl⟩).2 "TEST"⟩

/-- Claim C9 at the concrete scenario: a store-lookup timeout propagates from
both operations and suppresses every event. -/
theorem dependency_error_propagates_witness :
    ((add_clan envTimeout "TEST").result = .error (.transport "timeout") ∧
     (add_clan envTimeout "TEST").events = []) ∧
    ((remove_clan envTimeout "TEST").result = .error (.transport "timeout") ∧
     (remove_clan envTimeout "TEST").events = []) :=
  ⟨(dependency_error_propagates envTimeout "TEST" (.transport "timeout")).1 (Or.inl rfl),
   (dependency_error_propagates envTimeout "TEST" (.transport "timeout")).2 (Or.inl rfl)⟩

/-- Claim C10 at the concrete scenario: a 204 create acknowledgment is read
as already-existed, so Add TEST on `env204` reports 200 with no event. -/
theorem create_only_201_publishes_witness :
    save_clan env204 ⟨1, "TEST"⟩ = .ok false ∧
    add_clan env204 "TEST" =
      ⟨.ok .alreadyPresent,
       [.storeLookup "TEST", .sourceLookup "TEST", .storeCreate ⟨1, "TEST"⟩], []⟩ :=
  ⟨(create_only_201_publishes env204 "TEST" ⟨1, "TEST"⟩ 204 none rfl rfl rfl rfl).1,
   (create_only_201_publishes env204 "TEST" ⟨1, "TEST"⟩ 204 none rfl rfl rfl rfl).2
     (by decide)⟩

end ClanManager
